import Mathlib

/-!
Shallow embedding of the Student Management API (src/myapi.py): the in-memory
student store and its six operations (list, get-by-id, search-by-name, create,
partial update, delete), with the field validation that the framework applies
to request bodies and query parameters before each handler runs.

The Python store is a dict from string keys to Student records; dicts keep
insertion order, assignment to an existing key replaces in place, assignment
to a new key appends, and deletion removes the entry.  We model it as an
association list with exactly those operations.  `uuid.uuid4()` is modelled
as a deterministic supply of fresh identifier strings drawn from a counter
carried in the state.

A patch body distinguishes, per field, a key that is absent, a key set to
JSON null, and a key set to a value: the update model's fields are Optional,
so an explicit null passes validation, survives
`model_dump(exclude_unset=True)`, and is stored by `model_copy` without
validation.  Runtime records therefore admit a missing name or age, and the
search handler — which calls `.lower()` on every stored name — raises on
such a record; that unhandled exception is modelled as an internal error.
-/

set_option autoImplicit false

namespace StudentApi

/-- A student record as it lives at runtime.  The pydantic `Student` model
declares `name` a string and `age` an integer, but `model_copy(update=...)`
performs no validation, so a patch that sets a field to an explicit JSON
null stores None in it; the embedded type therefore admits `none` for
`name` and `age`.  Parsing a create body never produces `none` (both fields
are required and non-nullable there), and `id` and `class_year` can never
become null (no accepted patch key reaches them). -/
structure Student where
  id : String
  name : Option String
  age : Option Int
  class_year : String
deriving Repr, DecidableEq

/-- `name` constraint of the `Student` model: `min_length=2, max_length=50`,
where length counts characters. -/
def nameOk (n : String) : Bool :=
  2 ≤ n.length && n.length ≤ 50

/-- `age` constraint of the `Student` model: `gt=0, lt=100`. -/
def ageOk (a : Int) : Bool :=
  0 < a && a < 100

/-- `class_year` constraint of the `Student` model: the anchored pattern
"year " followed by one or two digits. -/
def classYearOk (s : String) : Bool :=
  match s.data with
  | 'y' :: 'e' :: 'a' :: 'r' :: ' ' :: rest =>
      (rest.length == 1 || rest.length == 2) && rest.all Char.isDigit
  | _ => false

/-- All four field constraints of the `Student` model on a runtime record:
`name` and `age` must be present and in range, `class_year` must match the
pattern (the `id` field is an unconstrained string). -/
def validStudent (st : Student) : Bool :=
  (match st.name with | none => false | some n => nameOk n)
  && (match st.age with | none => false | some a => ageOk a)
  && classYearOk st.class_year

/-- What the operations actually maintain on stored records: a present name
or age is in range and `class_year` always matches its pattern, but `name`
and `age` may be absent after an explicit-null patch. -/
def storedFieldsOk (st : Student) : Bool :=
  (match st.name with | none => true | some n => nameOk n)
  && (match st.age with | none => true | some a => ageOk a)
  && classYearOk st.class_year

/-- The store: the Python dict `students_db` as an association list from
key strings to records, in insertion order. -/
abbrev Store := List (String × Student)

/-- `k in students_db` / `students_db[k]` lookup. -/
def lookupStore : Store → String → Option Student
  | [], _ => none
  | (k', v) :: rest, k => if k' = k then some v else lookupStore rest k

/-- `students_db[k] = v`: replace in place when the key is present,
append when it is new (Python dict assignment). -/
def insertStore : Store → String → Student → Store
  | [], k, v => [(k, v)]
  | (k', v') :: rest, k, v =>
      if k' = k then (k, v) :: rest else (k', v') :: insertStore rest k v

/-- `del students_db[k]`: drop the entry with that key. -/
def eraseStore (db : Store) (k : String) : Store :=
  db.filter (fun kv => kv.1 != k)

/-- `students_db.values()` in insertion order. -/
def storeValues (db : Store) : List Student :=
  db.map (fun kv => kv.2)

/-- The failure kinds surfaced to callers: a 404 with its detail message, a
422 validation failure raised by request parsing, and a 500 from an
unhandled exception inside a handler (the search handler calls `.lower()`
on a stored name that a null patch has cleared). -/
inductive Err where
  | notFound (detail : String)
  | validationError
  | internalError
deriving Repr, DecidableEq

/-- The process state: the store plus the fresh-id counter that models
`uuid.uuid4()`. -/
structure St where
  db : Store
  next : Nat
deriving Repr, DecidableEq

/-- Fresh identifier supply standing in for `str(uuid.uuid4())`; successive
draws are distinct strings, disjoint from the fixed seed keys. -/
def genId (n : Nat) : String :=
  "uuid-gen-" ++ toString n

/-- Seed record `Student(name="John", age=17, class_year="year 12")`; its id
comes from the generator, not from the dict key it is stored under. -/
def seedJohn : Student :=
  { id := genId 0, name := some "John", age := some 17, class_year := "year 12" }

/-- Seed record `Student(name="Jane", age=16, class_year="year 11")`. -/
def seedJane : Student :=
  { id := genId 1, name := some "Jane", age := some 16, class_year := "year 11" }

/-- The literal `students_db` initializer: two records under fixed uuid-string
keys, each record carrying a freshly generated id of its own. -/
def students_db_init : Store :=
  [("550e8400-e29b-41d4-a716-446655440000", seedJohn),
   ("f47ac10b-58cc-4372-a567-0e02b2c3d479", seedJane)]

/-- Process state right after module load: the seeded store, with two
generator draws already consumed by the seed records. -/
def initSt : St :=
  { db := students_db_init, next := 2 }

/-- `GET /students`: every stored student, in insertion order. -/
def get_all_students (db : Store) : List Student :=
  storeValues db

/-- `GET /students/{student_id}`: the record under that key, or a 404 whose
detail names the id. -/
def get_student (db : Store) (student_id : String) : Except Err Student :=
  match lookupStore db student_id with
  | none => .error (.notFound ("Student with ID " ++ student_id ++ " not found"))
  | some st => .ok st

/-- Python `str.lower`, restricted to the ASCII case mapping. -/
def strLower (s : String) : String :=
  ⟨s.data.map Char.toLower⟩

/-- The comprehension inside the search endpoint:
`[s for s in students_db.values() if s.name.lower() == name.lower()]`.
It calls `.lower()` on every stored name, so it raises — yielding `none`
here — exactly when some stored record's name has been cleared by an
explicit-null patch; otherwise it is the case-insensitive filter. -/
def searchResults (db : Store) (name : String) : Option (List Student) :=
  if (storeValues db).any (fun s => s.name.isNone) then none
  else some ((storeValues db).filter
    (fun s => s.name.map strLower == some (strLower name)))

/-- `GET /students/search/by-name`: the query parameter is validated
(`min_length=2`) before the handler runs; a raising comprehension is an
unhandled exception (500); an empty result set is a 404 whose detail quotes
the searched name. -/
def get_student_by_name (db : Store) (name : String) : Except Err (List Student) :=
  if name.length < 2 then .error .validationError
  else
    match searchResults db name with
    | none => .error .internalError
    | some [] =>
        .error (.notFound ("No students found with name \x27" ++ name ++ "\x27"))
    | some res => .ok res

/-- The request body of `POST /students` before parsing: the `Student` model
with `id` optional (its default comes from the uuid generator).  The three
required fields are non-nullable there, so a body that omits one or sets it
to JSON null never reaches the handler — it fails parsing exactly like a
constraint violation — and is not represented separately. -/
structure Candidate where
  id : Option String
  name : String
  age : Int
  class_year : String
deriving Repr, DecidableEq

/-- Request-body validation for create: the three constrained fields of the
`Student` model (a supplied id is an unconstrained string). -/
def validCandidate (c : Candidate) : Bool :=
  nameOk c.name && ageOk c.age && classYearOk c.class_year

/-- `POST /students`: body parsing rejects an invalid candidate with a 422
and leaves the handler unreached; otherwise the parsed record (with a
generated id when none was supplied) is stored under its own id —
overwriting any entry already at that key — and returned. -/
def create_student (s : St) (c : Candidate) : Except Err Student × St :=
  if validCandidate c then
    match c.id with
    | some i =>
        let st : Student :=
          { id := i, name := some c.name, age := some c.age,
            class_year := c.class_year }
        (.ok st, { db := insertStore s.db i st, next := s.next })
    | none =>
        let st : Student :=
          { id := genId s.next, name := some c.name, age := some c.age,
            class_year := c.class_year }
        (.ok st, { db := insertStore s.db st.id st, next := s.next + 1 })
  else (.error .validationError, s)

/-- The body of `PATCH /students/{student_id}` before parsing.  Every field
of the `UpdateStudent` model is `Optional`, so each key is either absent
(`none`), set to JSON null (`some none`) — which the `Optional` validator
accepts and `model_dump(exclude_unset=True)` keeps — or set to a value
(`some (some v)`).  A client-supplied `id` key matches no field and is
dropped by parsing; it is carried here only to show it is ignored. -/
structure RawPatch where
  id : Option (Option String)
  name : Option (Option String)
  age : Option (Option Int)
  class_ : Option (Option String)
deriving Repr, DecidableEq

/-- Request-body validation of `UpdateStudent`: an absent key or an explicit
null passes its `Optional` field; a present value must meet the constraint
the field declares. -/
def validPatch (p : RawPatch) : Bool :=
  (match p.name with
    | none => true | some none => true | some (some n) => nameOk n) &&
  (match p.age with
    | none => true | some none => true | some (some a) => ageOk a) &&
  (match p.class_ with
    | none => true | some none => true | some (some c) => classYearOk c)

/-- `PATCH /students/{student_id}`: body parsing rejects an invalid patch
with a 422 before the handler runs; then a missing key is a 404.  Otherwise
`model_copy(update=update_dict)` is applied to the stored record with no
validation: only keys that name `Student` fields take effect, so `name` and
`age` merge in — an explicit null stores `none` — while the patch's
`class_` key (which `Student` does not have) and any supplied `id` change
nothing; the merged record replaces the stored one and is returned. -/
def update_student (s : St) (student_id : String) (p : RawPatch) :
    Except Err Student × St :=
  if validPatch p then
    match lookupStore s.db student_id with
    | none =>
        (.error (.notFound ("Student with ID " ++ student_id ++ " not found")), s)
    | some old =>
        let merged : Student :=
          { old with name := p.name.getD old.name, age := p.age.getD old.age }
        (.ok merged, { db := insertStore s.db student_id merged, next := s.next })
  else (.error .validationError, s)

/-- `DELETE /students/{student_id}`: a missing key is a 404; otherwise the
entry is removed and nothing is returned (204). -/
def delete_student (s : St) (student_id : String) : Except Err Unit × St :=
  match lookupStore s.db student_id with
  | none =>
      (.error (.notFound ("Student with ID " ++ student_id ++ " not found")), s)
  | some _ => (.ok (), { db := eraseStore s.db student_id, next := s.next })

/-- One logical request against the service. -/
inductive Op where
  | listAll
  | get (student_id : String)
  | search (name : String)
  | create (c : Candidate)
  | update (student_id : String) (p : RawPatch)
  | delete (student_id : String)

/-- The state after serving one request (responses discarded). -/
def stepOp (s : St) : Op → St
  | .listAll => s
  | .get _ => s
  | .search _ => s
  | .create c => (create_student s c).2
  | .update i p => (update_student s i p).2
  | .delete i => (delete_student s i).2

/-- States the service can be in: the seeded initial state and everything
any sequence of requests leads to. -/
inductive Reachable : St → Prop where
  | init : Reachable initSt
  | step {s : St} (op : Op) : Reachable s → Reachable (stepOp s op)

/-- Every record held in the store meets the maintained field constraints
(present name/age in range, class_year matching). -/
def allStoredOk (db : Store) : Prop :=
  ∀ kv ∈ db, storedFieldsOk kv.2 = true

theorem lookupStore_insertStore_self (db : Store) (k : String) (v : Student) :
    lookupStore (insertStore db k v) k = some v := by
  induction db with
  | nil => simp [insertStore, lookupStore]
  | cons hd rest ih =>
      obtain ⟨k', v'⟩ := hd
      by_cases h : k' = k
      · simp [insertStore, h, lookupStore]
      · simp [insertStore, h, lookupStore, ih]

theorem lookupStore_eraseStore_self (db : Store) (k : String) :
    lookupStore (eraseStore db k) k = none := by
  induction db with
  | nil => rfl
  | cons hd rest ih =>
      obtain ⟨k', v'⟩ := hd
      by_cases h : k' = k
      · simpa [eraseStore, List.filter_cons, h] using ih
      · simpa [eraseStore, List.filter_cons, h, lookupStore] using ih

theorem lookupStore_mem (db : Store) (k : String) (v : Student) :
    lookupStore db k = some v → (k, v) ∈ db := by
  induction db with
  | nil => intro h; simp [lookupStore] at h
  | cons hd rest ih =>
      obtain ⟨k', v'⟩ := hd
      intro h
      by_cases hk : k' = k
      · subst hk
        have h' : v' = v := by simpa [lookupStore] using h
        subst h'
        exact List.mem_cons_self _ _
      · simp only [lookupStore, if_neg hk] at h
        exact List.mem_cons_of_mem _ (ih h)

theorem mem_insertStore (db : Store) (k : String) (v : Student)
    (kv : String × Student) :
    kv ∈ insertStore db k v → kv ∈ db ∨ kv = (k, v) := by
  induction db with
  | nil =>
      intro h
      simp only [insertStore, List.mem_singleton] at h
      exact Or.inr h
  | cons hd rest ih =>
      obtain ⟨k', v'⟩ := hd
      intro h
      by_cases hk : k' = k
      · simp only [insertStore, if_pos hk, List.mem_cons] at h
        rcases h with h | h
        · exact Or.inr h
        · exact Or.inl (List.mem_cons_of_mem _ h)
      · simp only [insertStore, if_neg hk, List.mem_cons] at h
        rcases h with h | h
        · exact Or.inl (by simp [h])
        · rcases ih h with h' | h'
          · exact Or.inl (List.mem_cons_of_mem _ h')
          · exact Or.inr h'

theorem mem_keys_insertStore (db : Store) (k : String) (v : Student) (a : String) :
    a ∈ (insertStore db k v).map Prod.fst → a ∈ db.map Prod.fst ∨ a = k := by
  intro h
  simp only [List.mem_map] at h ⊢
  obtain ⟨kv, hkv, hfst⟩ := h
  rcases mem_insertStore db k v kv hkv with h' | h'
  · exact Or.inl ⟨kv, h', hfst⟩
  · subst h'
    exact Or.inr hfst.symm

theorem nodup_keys_insertStore (db : Store) (k : String) (v : Student)
    (h : (db.map Prod.fst).Nodup) : ((insertStore db k v).map Prod.fst).Nodup := by
  induction db with
  | nil => simp [insertStore]
  | cons hd rest ih =>
      obtain ⟨k', v'⟩ := hd
      simp only [List.map_cons, List.nodup_cons] at h
      by_cases hk : k' = k
      · subst hk
        simpa [insertStore, List.nodup_cons] using h
      · simp only [insertStore, if_neg hk, List.map_cons, List.nodup_cons]
        refine ⟨?_, ih h.2⟩
        intro hmem
        rcases mem_keys_insertStore rest k v k' hmem with h' | h'
        · exact h.1 h'
        · exact hk h'

theorem nodup_keys_eraseStore (db : Store) (k : String)
    (h : (db.map Prod.fst).Nodup) : ((eraseStore db k).map Prod.fst).Nodup :=
  h.sublist ((List.filter_sublist db).map Prod.fst)

theorem allStoredOk_insertStore {db : Store} {k : String} {v : Student}
    (hdb : allStoredOk db) (hv : storedFieldsOk v = true) :
    allStoredOk (insertStore db k v) := by
  intro kv hkv
  rcases mem_insertStore db k v kv hkv with h | h
  · exact hdb kv h
  · subst h
    exact hv

theorem allStoredOk_eraseStore {db : Store} {k : String} (hdb : allStoredOk db) :
    allStoredOk (eraseStore db k) := by
  intro kv hkv
  exact hdb kv (List.mem_of_mem_filter hkv)

theorem validPatch_name {p : RawPatch} (h : validPatch p = true)
    (n : String) (hn : p.name = some (some n)) : nameOk n = true := by
  simp only [validPatch, Bool.and_eq_true] at h
  have h1 := h.1.1
  rw [hn] at h1
  exact h1

theorem validPatch_age {p : RawPatch} (h : validPatch p = true)
    (a : Int) (ha : p.age = some (some a)) : ageOk a = true := by
  simp only [validPatch, Bool.and_eq_true] at h
  have h1 := h.1.2
  rw [ha] at h1
  exact h1

theorem storedFieldsOk_merge {old : Student} {p : RawPatch}
    (hold : storedFieldsOk old = true) (hp : validPatch p = true) :
    storedFieldsOk
      { old with name := p.name.getD old.name, age := p.age.getD old.age } = true := by
  simp only [storedFieldsOk, Bool.and_eq_true] at hold ⊢
  refine ⟨⟨?_, ?_⟩, ?_⟩
  · cases hn : p.name with
    | none => exact hold.1.1
    | some optn =>
        cases optn with
        | none => rfl
        | some n => exact validPatch_name hp n hn
  · cases ha : p.age with
    | none => exact hold.1.2
    | some oa =>
        cases oa with
        | none => rfl
        | some a => exact validPatch_age hp a ha
  · exact hold.2

theorem create_student_eq_of_valid_some (s : St) (c : Candidate) (i : String)
    (hv : validCandidate c = true) (hi : c.id = some i) :
    create_student s c =
      (.ok { id := i, name := some c.name, age := some c.age,
             class_year := c.class_year },
       { db := insertStore s.db i
           { id := i, name := some c.name, age := some c.age,
             class_year := c.class_year },
         next := s.next }) := by
  unfold create_student
  rw [if_pos hv, hi]

theorem create_student_eq_of_valid_none (s : St) (c : Candidate)
    (hv : validCandidate c = true) (hi : c.id = none) :
    create_student s c =
      (.ok { id := genId s.next, name := some c.name, age := some c.age,
             class_year := c.class_year },
       { db := insertStore s.db (genId s.next)
           { id := genId s.next, name := some c.name, age := some c.age,
             class_year := c.class_year },
         next := s.next + 1 }) := by
  unfold create_student
  rw [if_pos hv, hi]

theorem create_student_eq_of_invalid (s : St) (c : Candidate)
    (hv : ¬ validCandidate c = true) :
    create_student s c = (.error .validationError, s) := by
  unfold create_student
  rw [if_neg hv]

theorem update_student_eq_of_some (s : St) (i : String) (p : RawPatch) (old : Student)
    (hv : validPatch p = true) (hl : lookupStore s.db i = some old) :
    update_student s i p =
      (.ok { old with name := p.name.getD old.name, age := p.age.getD old.age },
       { db := insertStore s.db i
           { old with name := p.name.getD old.name, age := p.age.getD old.age },
         next := s.next }) := by
  unfold update_student
  rw [if_pos hv, hl]

theorem update_student_eq_of_none (s : St) (i : String) (p : RawPatch)
    (hv : validPatch p = true) (hl : lookupStore s.db i = none) :
    update_student s i p =
      (.error (.notFound ("Student with ID " ++ i ++ " not found")), s) := by
  unfold update_student
  rw [if_pos hv, hl]

theorem update_student_eq_of_invalid (s : St) (i : String) (p : RawPatch)
    (hv : ¬ validPatch p = true) :
    update_student s i p = (.error .validationError, s) := by
  unfold update_student
  rw [if_neg hv]

theorem delete_student_eq_of_none (s : St) (i : String)
    (hl : lookupStore s.db i = none) :
    delete_student s i =
      (.error (.notFound ("Student with ID " ++ i ++ " not found")), s) := by
  unfold delete_student
  rw [hl]

theorem delete_student_eq_of_some (s : St) (i : String) (st : Student)
    (hl : lookupStore s.db i = some st) :
    delete_student s i = (.ok (), { db := eraseStore s.db i, next := s.next }) := by
  unfold delete_student
  rw [hl]

theorem update_student_frame (s : St) (student_id : String) (p : RawPatch)
    (st : Student) (hok : (update_student s student_id p).1 = .ok st) :
    ∃ old, lookupStore s.db student_id = some old
      ∧ st.id = old.id
      ∧ st.class_year = old.class_year
      ∧ st.name = p.name.getD old.name
      ∧ st.age = p.age.getD old.age
      ∧ validPatch p = true
      ∧ (update_student s student_id p).2.db = insertStore s.db student_id st
      ∧ (update_student s student_id p).2.next = s.next := by
  by_cases hv : validPatch p = true
  · cases hl : lookupStore s.db student_id with
    | none =>
        rw [update_student_eq_of_none s student_id p hv hl] at hok
        exact absurd hok (by simp)
    | some old =>
        rw [update_student_eq_of_some s student_id p old hv hl] at hok
        obtain rfl : _ = st := Except.ok.inj hok
        rw [update_student_eq_of_some s student_id p old hv hl]
        exact ⟨old, rfl, rfl, rfl, rfl, rfl, hv, rfl, rfl⟩
  · rw [update_student_eq_of_invalid s student_id p hv] at hok
    exact absurd hok (by simp)

theorem stepOp_preserves {s : St} (op : Op)
    (h : allStoredOk s.db ∧ (s.db.map Prod.fst).Nodup) :
    allStoredOk (stepOp s op).db ∧ ((stepOp s op).db.map Prod.fst).Nodup := by
  cases op with
  | listAll => exact h
  | get i => exact h
  | search q => exact h
  | create c =>
      show allStoredOk (create_student s c).2.db
        ∧ (((create_student s c).2.db).map Prod.fst).Nodup
      by_cases hv : validCandidate c = true
      · cases hc : c.id with
        | some i =>
            rw [create_student_eq_of_valid_some s c i hv hc]
            exact ⟨allStoredOk_insertStore h.1 hv, nodup_keys_insertStore _ _ _ h.2⟩
        | none =>
            rw [create_student_eq_of_valid_none s c hv hc]
            exact ⟨allStoredOk_insertStore h.1 hv, nodup_keys_insertStore _ _ _ h.2⟩
      · rw [create_student_eq_of_invalid s c hv]
        exact h
  | update i p =>
      show allStoredOk (update_student s i p).2.db
        ∧ (((update_student s i p).2.db).map Prod.fst).Nodup
      by_cases hv : validPatch p = true
      · cases hl : lookupStore s.db i with
        | none =>
            rw [update_student_eq_of_none s i p hv hl]
            exact h
        | some old =>
            rw [update_student_eq_of_some s i p old hv hl]
            have hold : storedFieldsOk old = true := h.1 _ (lookupStore_mem _ _ _ hl)
            exact ⟨allStoredOk_insertStore h.1 (storedFieldsOk_merge hold hv),
              nodup_keys_insertStore _ _ _ h.2⟩
      · rw [update_student_eq_of_invalid s i p hv]
        exact h
  | delete i =>
      show allStoredOk (delete_student s i).2.db
        ∧ (((delete_student s i).2.db).map Prod.fst).Nodup
      cases hl : lookupStore s.db i with
      | none =>
          rw [delete_student_eq_of_none s i hl]
          exact h
      | some st =>
          rw [delete_student_eq_of_some s i st hl]
          exact ⟨allStoredOk_eraseStore h.1, nodup_keys_eraseStore _ _ h.2⟩

theorem reachable_invariant (s : St) (h : Reachable s) :
    allStoredOk s.db ∧ (s.db.map Prod.fst).Nodup := by
  induction h with
  | init =>
      constructor
      · show ∀ kv ∈ initSt.db, storedFieldsOk kv.2 = true
        decide
      · decide
  | step op hr ih => exact stepOp_preserves op ih

/-- C1 (amended): in every reachable state every stored record has a
class_year matching its pattern and a name and age in range whenever they
are present, the store never maps two entries to the same key, and a
successful update leaves the stored record's id unchanged.  Two conjuncts
of the original claim fail on the code: records' id fields need not be
unique (create can supply an id equal to another record's id field), and
name or age can be cleared outright by an explicit-null patch, voiding
their field constraints (see the counterexample). -/
theorem stored_records_valid_unique_keys_id_immutable :
    (∀ s : St, Reachable s →
      (∀ k st, lookupStore s.db k = some st → storedFieldsOk st = true)
      ∧ ((s.db.map Prod.fst)).Nodup)
    ∧ (∀ (s : St) (i : String) (p : RawPatch) (st old : Student),
        (update_student s i p).1 = .ok st →
        lookupStore s.db i = some old → st.id = old.id) := by
  constructor
  · intro s hs
    obtain ⟨hv, hn⟩ := reachable_invariant s hs
    exact ⟨fun k st hl => hv _ (lookupStore_mem _ _ _ hl), hn⟩
  · intro s i p st old hok hold
    obtain ⟨old', hold', hid, -⟩ := update_student_frame s i p st hok
    obtain rfl : old = old' := Option.some.inj (hold.symm.trans hold')
    exact hid

/-- Witness for C1: the initial state is reachable and its record under the
first seed key meets the maintained constraints, and a concrete successful
update keeps the id. -/
theorem stored_records_valid_unique_keys_id_immutable_witness :
    storedFieldsOk seedJohn = true
    ∧ ({ seedJohn with age := some 18 } : Student).id = seedJohn.id :=
  ⟨(stored_records_valid_unique_keys_id_immutable.1 initSt Reachable.init).1
      "550e8400-e29b-41d4-a716-446655440000" seedJohn (by decide),
   stored_records_valid_unique_keys_id_immutable.2 initSt
      "550e8400-e29b-41d4-a716-446655440000"
      ⟨none, none, some (some 18), none⟩
      { seedJohn with age := some 18 } seedJohn (by rfl) (by rfl)⟩

/-- C1 counterexample: from the seeded initial state, a create whose body
supplies an id equal to the seeded John record's generated id leaves two
distinct keys whose records carry the same id, and an update whose body
sets name to an explicit JSON null stores a record with no name at all —
refuting the claim's id-uniqueness and always-valid conjuncts. -/
theorem id_collision_and_null_patch_refute_invariants :
    ((lookupStore
        (stepOp initSt (.create ⟨some (genId 0), "Evil Eve", 20, "year 9"⟩)).db
        "550e8400-e29b-41d4-a716-446655440000").map Student.id = some (genId 0))
    ∧ ((lookupStore
        (stepOp initSt (.create ⟨some (genId 0), "Evil Eve", 20, "year 9"⟩)).db
        (genId 0)).map Student.id = some (genId 0))
    ∧ "550e8400-e29b-41d4-a716-446655440000" ≠ genId 0
    ∧ ((lookupStore
        (stepOp initSt (.update "550e8400-e29b-41d4-a716-446655440000"
          ⟨none, some none, none, none⟩)).db
        "550e8400-e29b-41d4-a716-446655440000").map
          (fun st => (st.name, validStudent st)) = some (none, false)) := by
  refine ⟨by decide, by decide, by decide, by decide⟩

/-- C2 (code bug): on the seeded store, a patch carrying the update model's
class field set to "year 5" succeeds but both returns and stores the record
with class_year still "year 12": the patch field is named class_, which
matches no Student field, so update can never change class_year. -/
theorem update_cannot_change_class_year :
    (update_student initSt "550e8400-e29b-41d4-a716-446655440000"
        ⟨none, none, none, some (some "year 5")⟩).1 = .ok seedJohn
    ∧ lookupStore (update_student initSt "550e8400-e29b-41d4-a716-446655440000"
        ⟨none, none, none, some (some "year 5")⟩).2.db
        "550e8400-e29b-41d4-a716-446655440000" = some seedJohn
    ∧ seedJohn.class_year = "year 12" := by
  refine ⟨rfl, rfl, rfl⟩

/-- C3: a successful update keeps the record's id (a patch id is dropped by
body parsing), keeps every field absent from the patch, and in particular a
patch supplying only age 18 yields age 18 with name and class_year
unchanged. -/
theorem update_id_and_absent_fields_preserved :
    ∀ (s : St) (i : String) (p : RawPatch) (st old : Student),
      (update_student s i p).1 = .ok st →
      lookupStore s.db i = some old →
      st.id = old.id
      ∧ (p.name = none → st.name = old.name)
      ∧ (p.age = none → st.age = old.age)
      ∧ st.class_year = old.class_year
      ∧ (p.age = some (some 18) → st.age = some 18) := by
  intro s i p st old hok hold
  obtain ⟨old', hold', hid, hcy, hn, ha, -⟩ := update_student_frame s i p st hok
  obtain rfl : old = old' := Option.some.inj (hold.symm.trans hold')
  refine ⟨hid, ?_, ?_, hcy, ?_⟩
  · intro h
    rw [hn, h]
    rfl
  · intro h
    rw [ha, h]
    rfl
  · intro h
    rw [ha, h]
    rfl

/-- Witness for C3: updating the seeded John record with a patch supplying
age 18 plus a would-be id keeps id, name and class_year and sets age 18. -/
theorem update_id_and_absent_fields_preserved_witness :
    ({ seedJohn with age := some 18 } : Student).id = seedJohn.id
    ∧ ((⟨some (some "evil-id"), none, some (some 18), none⟩ : RawPatch).name = none →
        ({ seedJohn with age := some 18 } : Student).name = seedJohn.name)
    ∧ ((⟨some (some "evil-id"), none, some (some 18), none⟩ : RawPatch).age = none →
        ({ seedJohn with age := some 18 } : Student).age = seedJohn.age)
    ∧ ({ seedJohn with age := some 18 } : Student).class_year = seedJohn.class_year
    ∧ ((⟨some (some "evil-id"), none, some (some 18), none⟩ : RawPatch).age
          = some (some 18) →
        ({ seedJohn with age := some 18 } : Student).age = some 18) :=
  update_id_and_absent_fields_preserved initSt
    "550e8400-e29b-41d4-a716-446655440000"
    ⟨some (some "evil-id"), none, some (some 18), none⟩
    { seedJohn with age := some 18 } seedJohn (by rfl) (by rfl)

/-- C4: for a valid candidate, create followed by get_by_id on the returned
record's id returns exactly the record create returned. -/
theorem create_then_get_roundtrip :
    ∀ (s : St) (c : Candidate) (st : Student) (s' : St),
      validCandidate c = true →
      create_student s c = (.ok st, s') →
      get_student s'.db st.id = .ok st := by
  intro s c st s' hv h
  cases hc : c.id with
  | some i =>
      have he := (create_student_eq_of_valid_some s c i hv hc).symm.trans h
      obtain rfl : _ = st := Except.ok.inj (congrArg Prod.fst he)
      obtain rfl : _ = s' := congrArg Prod.snd he
      show get_student
        (insertStore s.db i ⟨i, some c.name, some c.age, c.class_year⟩) i = _
      unfold get_student
      rw [lookupStore_insertStore_self]
  | none =>
      have he := (create_student_eq_of_valid_none s c hv hc).symm.trans h
      obtain rfl : _ = st := Except.ok.inj (congrArg Prod.fst he)
      obtain rfl : _ = s' := congrArg Prod.snd he
      show get_student
        (insertStore s.db (genId s.next)
          ⟨genId s.next, some c.name, some c.age, c.class_year⟩) (genId s.next) = _
      unfold get_student
      rw [lookupStore_insertStore_self]

/-- Witness for C4: creating Jane Doe on the seeded store and then looking
up the returned id yields the created record. -/
theorem create_then_get_roundtrip_witness :
    get_student ((create_student initSt ⟨none, "Jane Doe", 15, "year 11"⟩).2).db
      "uuid-gen-2" = .ok ⟨"uuid-gen-2", some "Jane Doe", some 15, "year 11"⟩ :=
  create_then_get_roundtrip initSt ⟨none, "Jane Doe", 15, "year 11"⟩
    ⟨"uuid-gen-2", some "Jane Doe", some 15, "year 11"⟩
    ((create_student initSt ⟨none, "Jane Doe", 15, "year 11"⟩).2)
    (by decide) (by rfl)

/-- C5: create accepts exactly the documented ranges at their boundaries:
age 0 and 100 rejected, 1 and 99 accepted; a one-character name rejected,
two characters accepted; class_year "year 5" accepted, "year" and
"year 123" rejected. -/
theorem create_validation_boundaries :
    (create_student initSt ⟨none, "Al", 0, "year 5"⟩).1 = .error .validationError
    ∧ (create_student initSt ⟨none, "Al", 100, "year 5"⟩).1 = .error .validationError
    ∧ (create_student initSt ⟨none, "Al", 1, "year 5"⟩).1
        = .ok ⟨genId 2, some "Al", some 1, "year 5"⟩
    ∧ (create_student initSt ⟨none, "Al", 99, "year 5"⟩).1
        = .ok ⟨genId 2, some "Al", some 99, "year 5"⟩
    ∧ (create_student initSt ⟨none, "A", 15, "year 5"⟩).1 = .error .validationError
    ∧ (create_student initSt ⟨none, "Al", 15, "year 5"⟩).1
        = .ok ⟨genId 2, some "Al", some 15, "year 5"⟩
    ∧ (create_student initSt ⟨none, "Al", 15, "year"⟩).1 = .error .validationError
    ∧ (create_student initSt ⟨none, "Al", 15, "year 123"⟩).1
        = .error .validationError := by
  refine ⟨rfl, rfl, rfl, rfl, rfl, rfl, rfl, rfl⟩

/-- C6: a create or update rejected by validation returns the store exactly
as it was: the state component of the result is the input state. -/
theorem validation_failure_leaves_state_unchanged :
    ∀ (s : St) (c : Candidate) (i : String) (p : RawPatch),
      ((create_student s c).1 = .error .validationError →
        (create_student s c).2 = s)
      ∧ ((update_student s i p).1 = .error .validationError →
        (update_student s i p).2 = s) := by
  intro s c i p
  constructor
  · intro h
    by_cases hv : validCandidate c = true
    · exfalso
      cases hc : c.id with
      | some idv =>
          rw [create_student_eq_of_valid_some s c idv hv hc] at h
          exact absurd h (by simp)
      | none =>
          rw [create_student_eq_of_valid_none s c hv hc] at h
          exact absurd h (by simp)
    · rw [create_student_eq_of_invalid s c hv]
  · intro h
    by_cases hv : validPatch p = true
    · cases hl : lookupStore s.db i with
      | none => rw [update_student_eq_of_none s i p hv hl]
      | some old =>
          rw [update_student_eq_of_some s i p old hv hl] at h
          exact absurd h (by simp)
    · rw [update_student_eq_of_invalid s i p hv]

/-- Witness for C6: a create with a one-character name and an update with a
one-character name both fail validation and leave the seeded state intact. -/
theorem validation_failure_leaves_state_unchanged_witness :
    (create_student initSt ⟨none, "A", 15, "year 5"⟩).2 = initSt
    ∧ (update_student initSt "550e8400-e29b-41d4-a716-446655440000"
        ⟨none, some (some "A"), none, none⟩).2 = initSt :=
  ⟨(validation_failure_leaves_state_unchanged initSt ⟨none, "A", 15, "year 5"⟩
      "550e8400-e29b-41d4-a716-446655440000" ⟨none, some (some "A"), none, none⟩).1
      (by rfl),
   (validation_failure_leaves_state_unchanged initSt ⟨none, "A", 15, "year 5"⟩
      "550e8400-e29b-41d4-a716-446655440000" ⟨none, some (some "A"), none, none⟩).2
      (by rfl)⟩

theorem strLower_length (s : String) : (strLower s).length = s.length := by
  show (s.data.map Char.toLower).length = s.data.length
  exact List.length_map _ _

/-- C7: queries equal up to letter case give the same result set and the
same successful responses, and a student is in the result set exactly when
its name equals the query under case normalization (exact match, not
substring). -/
theorem search_case_insensitive_exact_match :
    ∀ (db : Store) (q1 q2 : String), strLower q1 = strLower q2 →
      searchResults db q1 = searchResults db q2
      ∧ (∀ l, get_student_by_name db q1 = .ok l ↔ get_student_by_name db q2 = .ok l)
      ∧ (∀ l st, searchResults db q1 = some l →
          (st ∈ l ↔ st ∈ storeValues db ∧ st.name.map strLower = some (strLower q1))) := by
  intro db q1 q2 h
  have hres : searchResults db q1 = searchResults db q2 := by
    unfold searchResults
    simp only [h]
  have hlen : q1.length = q2.length := by
    rw [← strLower_length q1, ← strLower_length q2, h]
  refine ⟨hres, ?_, ?_⟩
  · intro l
    unfold get_student_by_name
    rw [hlen, hres]
    by_cases hq : q2.length < 2
    · rw [if_pos hq, if_pos hq]
    · rw [if_neg hq, if_neg hq]
      cases hcase : searchResults db q2 with
      | none =>
          exact iff_of_false (fun hx => Except.noConfusion hx)
            (fun hx => Except.noConfusion hx)
      | some res =>
          cases res with
          | nil =>
              exact iff_of_false (fun hx => Except.noConfusion hx)
                (fun hx => Except.noConfusion hx)
          | cons a as => exact Iff.rfl
  · intro l st hl
    unfold searchResults at hl
    by_cases hcrash : ((storeValues db).any (fun s => s.name.isNone)) = true
    · rw [if_pos hcrash] at hl
      exact absurd hl (by simp)
    · rw [if_neg hcrash] at hl
      obtain rfl : _ = l := Option.some.inj hl
      simp [List.mem_filter]

/-- Witness for C7: searching "jane" and "JANE" on the seeded store returns
the same result set. -/
theorem search_case_insensitive_exact_match_witness :
    searchResults students_db_init "jane" = searchResults students_db_init "JANE" :=
  (search_case_insensitive_exact_match students_db_init "jane" "JANE" (by decide)).1

/-- C8: a query shorter than two characters is rejected as a validation
failure, with the same outcome whatever the store holds, and a well-formed
query matching no stored name is a NotFound whose message quotes the
searched name. -/
theorem search_short_query_and_empty_result :
    ∀ (db db' : Store) (q : String),
      (q.length < 2 →
        get_student_by_name db q = .error .validationError
        ∧ get_student_by_name db q = get_student_by_name db' q)
      ∧ (¬ q.length < 2 → searchResults db q = some [] →
        get_student_by_name db q
          = .error (.notFound ("No students found with name \x27" ++ q ++ "\x27"))) := by
  intro db db' q
  constructor
  · intro h
    unfold get_student_by_name
    rw [if_pos h, if_pos h]
    exact ⟨rfl, rfl⟩
  · intro h hempty
    unfold get_student_by_name
    rw [if_neg h, hempty]

/-- Witness for C8: the one-character query "a" is a validation failure on
the seeded store, and the query "zz" matches nobody and is a NotFound
quoting "zz". -/
theorem search_short_query_and_empty_result_witness :
    (get_student_by_name students_db_init "a" = .error .validationError)
    ∧ (get_student_by_name students_db_init "zz"
        = .error (.notFound ("No students found with name \x27" ++ "zz" ++ "\x27"))) :=
  ⟨((search_short_query_and_empty_result students_db_init [] "a").1 (by decide)).1,
   (search_short_query_and_empty_result students_db_init [] "zz").2
     (by decide) (by decide)⟩

/-- C9: deleting an absent id is a NotFound naming the id with the state
untouched; deleting a present id succeeds with no content, and a subsequent
get_by_id of the same id is a NotFound whose message references it. -/
theorem delete_then_get_not_found :
    ∀ (s : St) (i : String),
      (lookupStore s.db i = none →
        delete_student s i
          = (.error (.notFound ("Student with ID " ++ i ++ " not found")), s))
      ∧ (∀ st, lookupStore s.db i = some st →
        (delete_student s i).1 = .ok ()
        ∧ get_student ((delete_student s i).2).db i
            = .error (.notFound ("Student with ID " ++ i ++ " not found"))) := by
  intro s i
  constructor
  · exact delete_student_eq_of_none s i
  · intro st h
    rw [delete_student_eq_of_some s i st h]
    refine ⟨rfl, ?_⟩
    show get_student (eraseStore s.db i) i = _
    unfold get_student
    rw [lookupStore_eraseStore_self]

/-- Witness for C9: deleting a missing id on the seeded store is a NotFound
naming it; deleting the first seed key succeeds and a get_by_id of that key
afterwards is a NotFound referencing it. -/
theorem delete_then_get_not_found_witness :
    delete_student initSt "missing-id"
      = (.error (.notFound ("Student with ID " ++ "missing-id" ++ " not found")),
         initSt)
    ∧ (delete_student initSt "550e8400-e29b-41d4-a716-446655440000").1 = .ok ()
    ∧ get_student
        ((delete_student initSt "550e8400-e29b-41d4-a716-446655440000").2).db
        "550e8400-e29b-41d4-a716-446655440000"
      = .error (.notFound ("Student with ID "
          ++ "550e8400-e29b-41d4-a716-446655440000" ++ " not found")) :=
  ⟨(delete_then_get_not_found initSt "missing-id").1 (by decide),
   (delete_then_get_not_found initSt "550e8400-e29b-41d4-a716-446655440000").2
     seedJohn (by decide)⟩

/-- C10: the store starts seeded with the John and Jane records, every
seeded entry is keyed by a fixed uuid string different from the freshly
generated id inside its record, and get_by_id on a seed key returns a
record whose id is not that key. -/
theorem seeded_store_keys_differ_from_ids :
    initSt.db = students_db_init
    ∧ students_db_init.map (fun kv => kv.2.name) = [some "John", some "Jane"]
    ∧ students_db_init.all (fun kv => kv.2.id != kv.1) = true
    ∧ lookupStore students_db_init "550e8400-e29b-41d4-a716-446655440000"
        = some seedJohn
    ∧ seedJohn.id ≠ "550e8400-e29b-41d4-a716-446655440000"
    ∧ get_student students_db_init "550e8400-e29b-41d4-a716-446655440000"
        = .ok seedJohn := by
  refine ⟨rfl, rfl, by decide, rfl, by decide, rfl⟩

end StudentApi
